import Mathlib

/-!
Shallow embedding of the timer/callback core of plua2 (`src/plua2/runtime.py`
and `src/plua2/interpreter.py`).

The runtime is a Python `asyncio` program: a single event-loop thread runs
coroutines that can only interleave at suspension points (`await` expressions
that actually suspend).  The embedding models the mutable runtime state
(`timer_tasks`, `callback_queue`, `timer_semaphore`, the dispatch-loop task)
as an explicit record and each maximal suspension-free code segment as one
atomic state-transformer:

* `expireStep` — the body of `create_timer.timer_task` after `asyncio.sleep`
  returns (membership check, `callback_queue.put`, `timer_semaphore.release`,
  and the `finally` deletion run with no intervening suspension, because
  `put` on an unbounded `asyncio.Queue` never blocks);
* `python_cancel_timer` — fully synchronous in the source;
* `loopAcquireStep` — the dispatch loop's `timer_semaphore.acquire()`
  followed by `callback_queue.get()` (no suspension between a successful
  acquire and the dequeue) and the synchronous start of the invocation;
* `loopFinishStep` — return of `execute_lua_callback` with the
  `try`/`except` boundary of `run_timer_callbacks_loop`.

Ghost fields (`in_flight`, `dispatched`, `enq_history`, `log`) record the
observable history needed to state ordering and isolation properties; they
are write-only and never feed back into control flow.

`_ensure_callback_loop_running` and `queue_lua_callback` can also be
invoked from producer threads that have no running event loop; they take
an `on_loop_thread` flag and return `Except`, reflecting that
`asyncio.create_task` raises `RuntimeError` off the loop thread — uncaught
in `_ensure_callback_loop_running` — and that `queue_lua_callback`'s
`try`/`except` fallback silently drops the event in that situation.
-/

set_option autoImplicit false

namespace Plua2

/-- Opaque payload carried by a general Lua callback (`data: Any` in the
source); its structure is irrelevant to the core, so it is modelled as a
natural number. -/
abbrev Payload := Nat

/-- Mirror of the `CallbackData` dataclass: `type` is `"timer"` or
`"lua_callback"`, `callback_id` identifies the script-side continuation,
`data` is an optional payload (`None` for timers). -/
structure CallbackData where
  type : String
  callback_id : Nat
  data : Option Payload
  deriving DecidableEq

/-- The event `timer_task` enqueues on expiry: `CallbackData("timer", timer_id)`. -/
def timerCallback (timer_id : Nat) : CallbackData :=
  ⟨"timer", timer_id, none⟩

/-- The event `queue_lua_callback` enqueues:
`CallbackData("lua_callback", callback_id, result_data)`. -/
def luaCallback (callback_id : Nat) (d : Option Payload) : CallbackData :=
  ⟨"lua_callback", callback_id, d⟩

/-- Control position of the single `run_timer_callbacks_loop` task: either
waiting on the semaphore (`idle`) or inside an `execute_lua_callback`
invocation for one dequeued event (`executing`). -/
inductive LoopPhase where
  | idle : LoopPhase
  | executing (cb : CallbackData) : LoopPhase
  deriving DecidableEq

/-- The shared mutable state of `LuaAsyncRuntime` together with ghost
history fields.

* `timer_tasks` — the key set of the `self.timer_tasks` dict (the live set);
* `cancel_requested` — ids whose underlying `asyncio.Task` received a
  `cancel()` request from `python_cancel_timer`;
* `callback_queue` — the FIFO `asyncio.Queue` contents, head = next out;
* `timer_semaphore` — the counting semaphore's value;
* `loop_running` — whether `self.callback_task` exists and is not done;
* `phase` — control position of the dispatch-loop task;
* `in_flight` — ghost counter of engine invocations currently in flight;
* `dispatched` — ghost list of events handed to the engine, in invocation
  order;
* `enq_history` — ghost list of all events ever enqueued, in enqueue order;
* `log` — ghost list of `(callback_id, error)` diagnostics printed by the
  dispatch loop's `except` clause. -/
structure RuntimeState where
  timer_tasks : Finset Nat
  cancel_requested : Finset Nat
  callback_queue : List CallbackData
  timer_semaphore : Nat
  loop_running : Bool
  phase : LoopPhase
  in_flight : Nat
  dispatched : List CallbackData
  enq_history : List CallbackData
  log : List (Nat × String)
  deriving DecidableEq

/-- State right after `LuaAsyncRuntime.__init__`: empty timer dict, empty
queue, semaphore at 0, `callback_task = None`. -/
def initState : RuntimeState :=
  { timer_tasks := ∅
    cancel_requested := ∅
    callback_queue := []
    timer_semaphore := 0
    loop_running := false
    phase := LoopPhase.idle
    in_flight := 0
    dispatched := []
    enq_history := []
    log := [] }

/-- Body of `create_timer.timer_task` after the `asyncio.sleep` returns
(runtime.py lines 62-88): if `timer_id not in self.timer_tasks` the timer
was cancelled and the step is a silent no-op; otherwise it puts
`CallbackData("timer", timer_id)` on the queue, releases the semaphore
once, and the `finally` clause deletes the id from `timer_tasks`.  The
whole segment contains no suspension point (`put` on an unbounded queue
never blocks), so it is one atomic step. -/
def expireStep (timer_id : Nat) (s : RuntimeState) : RuntimeState :=
  if timer_id ∈ s.timer_tasks then
    { s with
        callback_queue := s.callback_queue ++ [timerCallback timer_id]
        timer_semaphore := s.timer_semaphore + 1
        timer_tasks := s.timer_tasks.erase timer_id
        enq_history := s.enq_history ++ [timerCallback timer_id] }
  else s

/-- `create_timer` (runtime.py lines 53-97): spawns the timer task and
stores it under `timer_id` in the `timer_tasks` dict.  The function body
contains no `raise` and no failing primitive, so the Python call can never
surface an error; the `Except` result mirrors that raise-ability and is
always `Except.ok`.  A duplicate `timer_id` silently overwrites the dict
entry. -/
def create_timer (timer_id : Nat) (delay_ms : Nat) (s : RuntimeState) :
    Except String RuntimeState :=
  let _ := delay_ms
  Except.ok { s with timer_tasks := insert timer_id s.timer_tasks }

/-- `_ensure_callback_loop_running` (runtime.py lines 209-221): if the
callback-loop task exists and is not done, nothing happens; otherwise a
fresh `run_timer_callbacks_loop` task is created with `asyncio.create_task`
(line 213).  `asyncio.create_task` succeeds only on the event-loop thread;
called from a thread with no running event loop it raises `RuntimeError`,
and nothing in this function catches it, so the raise propagates to the
caller.  `on_loop_thread` says whether the calling thread is the
event-loop thread. -/
def ensure_callback_loop_running (on_loop_thread : Bool) (s : RuntimeState) :
    Except String RuntimeState :=
  if s.loop_running then Except.ok s
  else if on_loop_thread then Except.ok { s with loop_running := true }
  else Except.error "no running event loop"

/-- `python_timer` (runtime.py lines 99-103): auto-start the callback loop,
then `create_timer`.  `python_timer` is exported to Lua as
`_PY.pythonTimer` (interpreter.py line 119) and Lua only ever runs inside
an engine invocation on the event-loop thread, so its
`_ensure_callback_loop_running` call always happens with a running loop. -/
def python_timer (timer_id : Nat) (delay_ms : Nat) (s : RuntimeState) :
    Except String RuntimeState :=
  match ensure_callback_loop_running true s with
  | Except.ok s' => create_timer timer_id delay_ms s'
  | Except.error e => Except.error e

/-- `python_cancel_timer` (runtime.py lines 105-118): if `timer_id` is a key
of `timer_tasks`, request cancellation of the underlying task, delete the
key and return `True`; otherwise return `False`.  Fully synchronous, hence
a single atomic step. -/
def python_cancel_timer (timer_id : Nat) (s : RuntimeState) :
    RuntimeState × Bool :=
  if timer_id ∈ s.timer_tasks then
    ({ s with
        timer_tasks := s.timer_tasks.erase timer_id
        cancel_requested := insert timer_id s.cancel_requested }, true)
  else (s, false)

/-- `_queue_callback` (runtime.py lines 364-367): put the event on the
queue, then release the semaphore; no suspension between the two. -/
def queue_callback (cb : CallbackData) (s : RuntimeState) : RuntimeState :=
  { s with
      callback_queue := s.callback_queue ++ [cb]
      timer_semaphore := s.timer_semaphore + 1
      enq_history := s.enq_history ++ [cb] }

/-- `queue_lua_callback` (runtime.py lines 339-362): first call
`_ensure_callback_loop_running` (line 344) — this call is OUTSIDE the
`try`, so a `RuntimeError` raised there (producer thread, loop task done)
propagates to the producer.  Then build
`CallbackData("lua_callback", callback_id, result_data)` and try
`asyncio.get_running_loop()`: on the event-loop thread it succeeds and
`asyncio.ensure_future(self._queue_callback(...))` schedules the
enqueue-and-release; on a producer thread it raises `RuntimeError`, the
fallback `asyncio.create_task` (line 360) raises too, the
`except Exception` clause logs, and the event is silently dropped
(lines 355-362). -/
def queue_lua_callback (on_loop_thread : Bool) (callback_id : Nat)
    (d : Option Payload) (s : RuntimeState) : Except String RuntimeState :=
  match ensure_callback_loop_running on_loop_thread s with
  | Except.error e => Except.error e
  | Except.ok s' =>
    if on_loop_thread then
      Except.ok (queue_callback (luaCallback callback_id d) s')
    else
      Except.ok s'

/-- `stop` (runtime.py lines 289-295): cancel the callback-loop task (the
cancellation is delivered at the loop's next suspension point, so an
in-flight synchronous invocation finishes first) and print a message.
Nothing else is touched: timers stay live, the queue keeps its entries. -/
def stop (s : RuntimeState) : RuntimeState :=
  { s with loop_running := false }

/-- The engine boundary: `execute_lua_callback(callback_id, data)` on the
interpreter either returns or raises; the raised message is abstracted as a
`String`.  The core treats the engine as a black box, so it is a parameter. -/
abbrev Engine := Nat → Option Payload → Except String Unit

/-- Routing inside `run_timer_callbacks_loop` (runtime.py lines 168-177):
a `"timer"` event invokes the engine with `data = None`, a
`"lua_callback"` event invokes it with its payload, and any other type
falls through the `if`/`elif` and does nothing. -/
def invokeEngine (engine : Engine) (cb : CallbackData) : Except String Unit :=
  if cb.type = "timer" then engine cb.callback_id none
  else if cb.type = "lua_callback" then engine cb.callback_id cb.data
  else Except.ok ()

/-- First half of one `run_timer_callbacks_loop` iteration (runtime.py
lines 145-165): when the loop task is alive and idle and the semaphore is
positive, `acquire()` succeeds, the head event is dequeued (no suspension
separates a successful acquire from the `get`), and the invocation begins.
When the semaphore is 0 the loop stays suspended and the step is a no-op;
if the queue were empty despite a positive semaphore, `get()` would block,
modelled as a no-op (shown unreachable below). -/
def loopAcquireStep (s : RuntimeState) : RuntimeState :=
  if s.loop_running = true ∧ s.phase = LoopPhase.idle ∧ 0 < s.timer_semaphore then
    match s.callback_queue with
    | [] => s
    | cb :: rest =>
      { s with
          timer_semaphore := s.timer_semaphore - 1
          callback_queue := rest
          phase := LoopPhase.executing cb
          in_flight := s.in_flight + 1
          dispatched := s.dispatched ++ [cb] }
  else s

/-- Second half of one iteration (runtime.py lines 167-184): the
`execute_lua_callback` invocation returns, either normally or by raising;
a raise is caught by the `except Exception` clause, which prints a
diagnostic carrying `callback_data.callback_id` and the error, and the
loop goes back to `idle` either way. -/
def loopFinishStep (engine : Engine) (s : RuntimeState) : RuntimeState :=
  match s.phase with
  | LoopPhase.idle => s
  | LoopPhase.executing cb =>
    match invokeEngine engine cb with
    | Except.ok _ =>
      { s with phase := LoopPhase.idle, in_flight := s.in_flight - 1 }
    | Except.error e =>
      { s with
          phase := LoopPhase.idle
          in_flight := s.in_flight - 1
          log := s.log ++ [(cb.callback_id, e)] }

/-- Interleaving alphabet: one constructor per atomic step the runtime can
take.  A trace is a list of these operations.  All operations run on the
event-loop thread: timers, the dispatch loop and script-initiated calls
live there, and `submit` stands for the scheduled `_queue_callback`
execution of an event-loop-thread submission — an off-loop submission
never reaches the shared state (it either raises before the `try` or is
silently dropped inside it, see `queue_lua_callback`), so it has no step
here and is treated directly on `queue_lua_callback`. -/
inductive Op where
  | createT (timer_id : Nat) (delay_ms : Nat) : Op
  | expire (timer_id : Nat) : Op
  | cancelT (timer_id : Nat) : Op
  | submit (callback_id : Nat) (d : Option Payload) : Op
  | beginDispatch : Op
  | finishDispatch : Op
  | stopCall : Op
  | ensureLoop : Op
  deriving DecidableEq

/-- Small-step semantics: apply one operation to the state.  `createT` goes
through `python_timer` (which never errors, see `create_timer`). -/
def step (engine : Engine) : Op → RuntimeState → RuntimeState
  | Op.createT timer_id delay_ms, s =>
    match python_timer timer_id delay_ms s with
    | Except.ok s' => s'
    | Except.error _ => s
  | Op.expire timer_id, s => expireStep timer_id s
  | Op.cancelT timer_id, s => (python_cancel_timer timer_id s).1
  | Op.submit callback_id d, s =>
    match queue_lua_callback true callback_id d s with
    | Except.ok s' => s'
    | Except.error _ => s
  | Op.beginDispatch, s => loopAcquireStep s
  | Op.finishDispatch, s => loopFinishStep engine s
  | Op.stopCall, s => stop s
  | Op.ensureLoop, s =>
    match ensure_callback_loop_running true s with
    | Except.ok s' => s'
    | Except.error _ => s

/-- Run a trace of operations from a state. -/
def run (engine : Engine) (s : RuntimeState) : List Op → RuntimeState
  | [] => s
  | op :: ops => run engine (step engine op s) ops

/-- Number of operations in the trace at which the expiry path for
`timer_id` actually fires (finds the id live and enqueues an event). -/
def fireCount (engine : Engine) (timer_id : Nat) :
    RuntimeState → List Op → Nat
  | _, [] => 0
  | s, op :: ops =>
    (match op with
     | Op.expire j => if j = timer_id ∧ j ∈ s.timer_tasks then 1 else 0
     | _ => 0) + fireCount engine timer_id (step engine op s) ops

/-- Number of operations in the trace at which `python_cancel_timer` for
`timer_id` returns `True`. -/
def cancelTrueCount (engine : Engine) (timer_id : Nat) :
    RuntimeState → List Op → Nat
  | _, [] => 0
  | s, op :: ops =>
    (match op with
     | Op.cancelT j => if j = timer_id ∧ (python_cancel_timer j s).2 = true then 1 else 0
     | _ => 0) + cancelTrueCount engine timer_id (step engine op s) ops

/-- One full dispatch-loop iteration: acquire-and-dequeue, then finish the
invocation. -/
def dispatchRound (engine : Engine) (s : RuntimeState) : RuntimeState :=
  step engine Op.finishDispatch (step engine Op.beginDispatch s)

/-- `n` consecutive dispatch-loop iterations. -/
def drainN (engine : Engine) : Nat → RuntimeState → RuntimeState
  | 0, s => s
  | n + 1, s => drainN engine n (dispatchRound engine s)

/-! Concrete states and engines used to instantiate theorems. -/

/-- An engine whose invocations always succeed. -/
def engOk : Engine := fun _ _ => Except.ok ()

/-- An engine whose invocations always raise. -/
def engFail : Engine := fun _ _ => Except.error "boom"

/-- A state with a single live timer with id 1. -/
def sLive : RuntimeState := { initState with timer_tasks := {1} }

/-- A running state with a live timer and a queued event. -/
def sBusy : RuntimeState :=
  { initState with
      timer_tasks := {1}
      callback_queue := [luaCallback 7 none]
      enq_history := [luaCallback 7 none]
      timer_semaphore := 1
      loop_running := true }

/-- A running, idle state with two queued events. -/
def sTwo : RuntimeState :=
  { initState with
      loop_running := true
      callback_queue := [luaCallback 3 (some 5), luaCallback 4 none]
      enq_history := [luaCallback 3 (some 5), luaCallback 4 none]
      timer_semaphore := 2 }

/-- A state whose dispatch loop is mid-invocation on one event. -/
def sExec : RuntimeState :=
  { initState with loop_running := true, in_flight := 1
                   phase := LoopPhase.executing (luaCallback 3 none) }

/-! Characterizations of the loop-thread paths of the lazy-start helpers. -/

theorem ensure_true_eq (s : RuntimeState) :
    ensure_callback_loop_running true s
      = Except.ok { s with loop_running := true } := by
  obtain ⟨t, c, q, sem, lr, ph, fl, dis, hist, lg⟩ := s
  unfold ensure_callback_loop_running
  dsimp only
  split <;> simp_all

theorem ensure_false_running (s : RuntimeState) (h : s.loop_running = true) :
    ensure_callback_loop_running false s = Except.ok s := by
  simp [ensure_callback_loop_running, h]

theorem ensure_false_stopped (s : RuntimeState) (h : s.loop_running = false) :
    ensure_callback_loop_running false s
      = Except.error "no running event loop" := by
  simp [ensure_callback_loop_running, h]

theorem python_timer_eq (timer_id delay_ms : Nat) (s : RuntimeState) :
    python_timer timer_id delay_ms s =
      Except.ok { s with timer_tasks := insert timer_id s.timer_tasks
                         loop_running := true } := by
  unfold python_timer create_timer
  rw [ensure_true_eq]

theorem queue_lua_true_eq (callback_id : Nat) (d : Option Payload)
    (s : RuntimeState) :
    queue_lua_callback true callback_id d s =
      Except.ok
        { s with
            callback_queue := s.callback_queue ++ [luaCallback callback_id d]
            timer_semaphore := s.timer_semaphore + 1
            enq_history := s.enq_history ++ [luaCallback callback_id d]
            loop_running := true } := by
  unfold queue_lua_callback
  rw [ensure_true_eq]
  rfl

theorem queue_lua_false_running (callback_id : Nat) (d : Option Payload)
    (s : RuntimeState) (h : s.loop_running = true) :
    queue_lua_callback false callback_id d s = Except.ok s := by
  unfold queue_lua_callback
  rw [ensure_false_running s h]
  rfl

theorem queue_lua_false_stopped (callback_id : Nat) (d : Option Payload)
    (s : RuntimeState) (h : s.loop_running = false) :
    queue_lua_callback false callback_id d s
      = Except.error "no running event loop" := by
  unfold queue_lua_callback
  rw [ensure_false_stopped s h]

/-! Helper lemmas about how each operation affects the live timer set. -/

theorem tasks_step_createT (engine : Engine) (j d : Nat) (s : RuntimeState) :
    (step engine (Op.createT j d) s).timer_tasks = insert j s.timer_tasks := by
  show (match python_timer j d s with
        | Except.ok s' => s'
        | Except.error _ => s).timer_tasks = _
  rw [python_timer_eq]

theorem tasks_step_expire (engine : Engine) (j : Nat) (s : RuntimeState) :
    (step engine (Op.expire j) s).timer_tasks = s.timer_tasks.erase j := by
  show (expireStep j s).timer_tasks = s.timer_tasks.erase j
  unfold expireStep
  split
  · rfl
  · next h => exact (Finset.erase_eq_of_not_mem h).symm

theorem tasks_step_cancelT (engine : Engine) (j : Nat) (s : RuntimeState) :
    (step engine (Op.cancelT j) s).timer_tasks = s.timer_tasks.erase j := by
  show ((python_cancel_timer j s).1).timer_tasks = s.timer_tasks.erase j
  unfold python_cancel_timer
  split
  · rfl
  · next h => exact (Finset.erase_eq_of_not_mem h).symm

theorem tasks_step_submit (engine : Engine) (j : Nat) (d : Option Payload)
    (s : RuntimeState) :
    (step engine (Op.submit j d) s).timer_tasks = s.timer_tasks := by
  show (match queue_lua_callback true j d s with
        | Except.ok s' => s'
        | Except.error _ => s).timer_tasks = _
  rw [queue_lua_true_eq]

theorem tasks_step_beginDispatch (engine : Engine) (s : RuntimeState) :
    (step engine Op.beginDispatch s).timer_tasks = s.timer_tasks := by
  show (loopAcquireStep s).timer_tasks = s.timer_tasks
  unfold loopAcquireStep
  split
  · cases s.callback_queue <;> rfl
  · rfl

theorem tasks_step_finishDispatch (engine : Engine) (s : RuntimeState) :
    (step engine Op.finishDispatch s).timer_tasks = s.timer_tasks := by
  show (loopFinishStep engine s).timer_tasks = s.timer_tasks
  unfold loopFinishStep
  cases s.phase with
  | idle => rfl
  | executing cb => cases h : invokeEngine engine cb <;> simp [h]

theorem tasks_step_stopCall (engine : Engine) (s : RuntimeState) :
    (step engine Op.stopCall s).timer_tasks = s.timer_tasks := rfl

theorem tasks_step_ensureLoop (engine : Engine) (s : RuntimeState) :
    (step engine Op.ensureLoop s).timer_tasks = s.timer_tasks := by
  show (match ensure_callback_loop_running true s with
        | Except.ok s' => s'
        | Except.error _ => s).timer_tasks = _
  rw [ensure_true_eq]

/-! Record characterizations of each atomic step. -/

theorem expireStep_fired (timer_id : Nat) (s : RuntimeState)
    (h : timer_id ∈ s.timer_tasks) :
    expireStep timer_id s =
      { s with
          callback_queue := s.callback_queue ++ [timerCallback timer_id]
          timer_semaphore := s.timer_semaphore + 1
          timer_tasks := s.timer_tasks.erase timer_id
          enq_history := s.enq_history ++ [timerCallback timer_id] } := by
  unfold expireStep
  rw [if_pos h]

theorem expireStep_noop (timer_id : Nat) (s : RuntimeState)
    (h : timer_id ∉ s.timer_tasks) :
    expireStep timer_id s = s := by
  unfold expireStep
  rw [if_neg h]

theorem cancel_found (timer_id : Nat) (s : RuntimeState)
    (h : timer_id ∈ s.timer_tasks) :
    python_cancel_timer timer_id s =
      ({ s with timer_tasks := s.timer_tasks.erase timer_id
                cancel_requested := insert timer_id s.cancel_requested }, true) := by
  unfold python_cancel_timer
  rw [if_pos h]

theorem cancel_missing (timer_id : Nat) (s : RuntimeState)
    (h : timer_id ∉ s.timer_tasks) :
    python_cancel_timer timer_id s = (s, false) := by
  unfold python_cancel_timer
  rw [if_neg h]

theorem step_createT_eq (engine : Engine) (j d : Nat) (s : RuntimeState) :
    step engine (Op.createT j d) s =
      { s with timer_tasks := insert j s.timer_tasks, loop_running := true } := by
  show (match python_timer j d s with
        | Except.ok s' => s'
        | Except.error _ => s) = _
  rw [python_timer_eq]

theorem step_submit_eq (engine : Engine) (j : Nat) (d : Option Payload)
    (s : RuntimeState) :
    step engine (Op.submit j d) s =
      { s with
          callback_queue := s.callback_queue ++ [luaCallback j d]
          timer_semaphore := s.timer_semaphore + 1
          enq_history := s.enq_history ++ [luaCallback j d]
          loop_running := true } := by
  show (match queue_lua_callback true j d s with
        | Except.ok s' => s'
        | Except.error _ => s) = _
  rw [queue_lua_true_eq]

theorem step_begin_eq (engine : Engine) (s : RuntimeState) (cb : CallbackData)
    (rest : List CallbackData) (h1 : s.loop_running = true)
    (h2 : s.phase = LoopPhase.idle) (h3 : s.callback_queue = cb :: rest)
    (h4 : 0 < s.timer_semaphore) :
    step engine Op.beginDispatch s =
      { s with
          timer_semaphore := s.timer_semaphore - 1
          callback_queue := rest
          phase := LoopPhase.executing cb
          in_flight := s.in_flight + 1
          dispatched := s.dispatched ++ [cb] } := by
  show loopAcquireStep s = _
  unfold loopAcquireStep
  rw [if_pos ⟨h1, h2, h4⟩, h3]

theorem step_begin_stuck (engine : Engine) (s : RuntimeState)
    (h : ¬(s.loop_running = true ∧ s.phase = LoopPhase.idle ∧ 0 < s.timer_semaphore)) :
    step engine Op.beginDispatch s = s := by
  show loopAcquireStep s = s
  unfold loopAcquireStep
  rw [if_neg h]

theorem step_begin_empty (engine : Engine) (s : RuntimeState)
    (h3 : s.callback_queue = []) :
    step engine Op.beginDispatch s = s := by
  show loopAcquireStep s = s
  unfold loopAcquireStep
  split
  · rw [h3]
  · rfl

theorem step_finish_idle (engine : Engine) (s : RuntimeState)
    (h : s.phase = LoopPhase.idle) :
    step engine Op.finishDispatch s = s := by
  show loopFinishStep engine s = s
  unfold loopFinishStep
  rw [h]

theorem step_finish_ok (engine : Engine) (s : RuntimeState) (cb : CallbackData)
    (h : s.phase = LoopPhase.executing cb)
    (he : invokeEngine engine cb = Except.ok ()) :
    step engine Op.finishDispatch s =
      { s with phase := LoopPhase.idle, in_flight := s.in_flight - 1 } := by
  show loopFinishStep engine s = _
  unfold loopFinishStep
  rw [h]
  dsimp only
  rw [he]

theorem step_finish_error (engine : Engine) (s : RuntimeState) (cb : CallbackData)
    (e : String) (h : s.phase = LoopPhase.executing cb)
    (he : invokeEngine engine cb = Except.error e) :
    step engine Op.finishDispatch s =
      { s with
          phase := LoopPhase.idle
          in_flight := s.in_flight - 1
          log := s.log ++ [(cb.callback_id, e)] } := by
  show loopFinishStep engine s = _
  unfold loopFinishStep
  rw [h]
  dsimp only
  rw [he]

theorem step_stop_eq (engine : Engine) (s : RuntimeState) :
    step engine Op.stopCall s = { s with loop_running := false } := rfl

theorem step_ensure_eq (engine : Engine) (s : RuntimeState) :
    step engine Op.ensureLoop s = { s with loop_running := true } := by
  show (match ensure_callback_loop_running true s with
        | Except.ok s' => s'
        | Except.error _ => s) = _
  rw [ensure_true_eq]

/-! Membership in the live set across steps. -/

theorem cancel_true_iff (j : Nat) (s : RuntimeState) :
    (python_cancel_timer j s).2 = true ↔ j ∈ s.timer_tasks := by
  by_cases h : j ∈ s.timer_tasks
  · rw [cancel_found j s h]
    simp [h]
  · rw [cancel_missing j s h]
    simp [h]

theorem not_mem_tasks_step (engine : Engine) (op : Op) (s : RuntimeState)
    (timer_id : Nat) (h : timer_id ∉ s.timer_tasks)
    (hop : ∀ d, op ≠ Op.createT timer_id d) :
    timer_id ∉ (step engine op s).timer_tasks := by
  cases op with
  | createT j d =>
    rw [tasks_step_createT]
    intro hmem
    rcases Finset.mem_insert.mp hmem with he | hm
    · exact hop d (by rw [he])
    · exact h hm
  | expire j =>
    rw [tasks_step_expire]
    exact fun hm => h (Finset.mem_of_mem_erase hm)
  | cancelT j =>
    rw [tasks_step_cancelT]
    exact fun hm => h (Finset.mem_of_mem_erase hm)
  | submit j d => rw [tasks_step_submit]; exact h
  | beginDispatch => rw [tasks_step_beginDispatch]; exact h
  | finishDispatch => rw [tasks_step_finishDispatch]; exact h
  | stopCall => rw [tasks_step_stopCall]; exact h
  | ensureLoop => rw [tasks_step_ensureLoop]; exact h

theorem mem_tasks_step (engine : Engine) (op : Op) (s : RuntimeState)
    (timer_id : Nat) (h : timer_id ∈ s.timer_tasks)
    (hexp : op ≠ Op.expire timer_id) (hcan : op ≠ Op.cancelT timer_id) :
    timer_id ∈ (step engine op s).timer_tasks := by
  cases op with
  | createT j d => rw [tasks_step_createT]; exact Finset.mem_insert_of_mem h
  | expire j =>
    rw [tasks_step_expire]
    exact Finset.mem_erase.mpr ⟨fun he => hexp (by rw [he]), h⟩
  | cancelT j =>
    rw [tasks_step_cancelT]
    exact Finset.mem_erase.mpr ⟨fun he => hcan (by rw [he]), h⟩
  | submit j d => rw [tasks_step_submit]; exact h
  | beginDispatch => rw [tasks_step_beginDispatch]; exact h
  | finishDispatch => rw [tasks_step_finishDispatch]; exact h
  | stopCall => rw [tasks_step_stopCall]; exact h
  | ensureLoop => rw [tasks_step_ensureLoop]; exact h

/-! Unfolding lemmas for the outcome counters. -/

theorem fireCount_cons_hit (engine : Engine) (timer_id : Nat) (s : RuntimeState)
    (rest : List Op) (hm : timer_id ∈ s.timer_tasks) :
    fireCount engine timer_id s (Op.expire timer_id :: rest)
      = 1 + fireCount engine timer_id (step engine (Op.expire timer_id) s) rest := by
  show (if timer_id = timer_id ∧ timer_id ∈ s.timer_tasks then 1 else 0) + _ = _
  rw [if_pos ⟨rfl, hm⟩]

theorem fireCount_cons_zero (engine : Engine) (timer_id : Nat) (op : Op)
    (s : RuntimeState) (rest : List Op)
    (h : op ≠ Op.expire timer_id ∨ timer_id ∉ s.timer_tasks) :
    fireCount engine timer_id s (op :: rest)
      = fireCount engine timer_id (step engine op s) rest := by
  cases op with
  | expire j =>
    show (if j = timer_id ∧ j ∈ s.timer_tasks then 1 else 0) + _ = _
    rw [if_neg, Nat.zero_add]
    rintro ⟨rfl, hm⟩
    rcases h with h | h
    · exact h rfl
    · exact h hm
  | createT j d => exact Nat.zero_add _
  | cancelT j => exact Nat.zero_add _
  | submit j d => exact Nat.zero_add _
  | beginDispatch => exact Nat.zero_add _
  | finishDispatch => exact Nat.zero_add _
  | stopCall => exact Nat.zero_add _
  | ensureLoop => exact Nat.zero_add _

theorem cancelTrueCount_cons_hit (engine : Engine) (timer_id : Nat)
    (s : RuntimeState) (rest : List Op) (hm : timer_id ∈ s.timer_tasks) :
    cancelTrueCount engine timer_id s (Op.cancelT timer_id :: rest)
      = 1 + cancelTrueCount engine timer_id (step engine (Op.cancelT timer_id) s) rest := by
  show (if timer_id = timer_id ∧ (python_cancel_timer timer_id s).2 = true then 1 else 0) + _ = _
  rw [if_pos ⟨rfl, (cancel_true_iff timer_id s).mpr hm⟩]

theorem cancelTrueCount_cons_zero (engine : Engine) (timer_id : Nat) (op : Op)
    (s : RuntimeState) (rest : List Op)
    (h : op ≠ Op.cancelT timer_id ∨ timer_id ∉ s.timer_tasks) :
    cancelTrueCount engine timer_id s (op :: rest)
      = cancelTrueCount engine timer_id (step engine op s) rest := by
  cases op with
  | cancelT j =>
    show (if j = timer_id ∧ (python_cancel_timer j s).2 = true then 1 else 0) + _ = _
    rw [if_neg, Nat.zero_add]
    rintro ⟨rfl, hm⟩
    rcases h with h | h
    · exact h rfl
    · exact h ((cancel_true_iff _ s).mp hm)
  | createT j d => exact Nat.zero_add _
  | expire j => exact Nat.zero_add _
  | submit j d => exact Nat.zero_add _
  | beginDispatch => exact Nat.zero_add _
  | finishDispatch => exact Nat.zero_add _
  | stopCall => exact Nat.zero_add _
  | ensureLoop => exact Nat.zero_add _

/-! An id absent from the live set can neither fire nor be cancelled
successfully, as long as no create re-registers it. -/

theorem counts_zero_of_dead (engine : Engine) (timer_id : Nat) :
    ∀ (ops : List Op) (s : RuntimeState), timer_id ∉ s.timer_tasks →
      (∀ d, Op.createT timer_id d ∉ ops) →
      fireCount engine timer_id s ops = 0 ∧
        cancelTrueCount engine timer_id s ops = 0 := by
  intro ops
  induction ops with
  | nil => exact fun s _ _ => ⟨rfl, rfl⟩
  | cons op rest ih =>
    intro s hdead hnc
    have hop : ∀ d, op ≠ Op.createT timer_id d := by
      intro d he
      exact hnc d (by rw [he]; exact List.mem_cons_self _ _)
    have hnc' : ∀ d, Op.createT timer_id d ∉ rest :=
      fun d hm => hnc d (List.mem_cons_of_mem op hm)
    have hrest := ih (step engine op s)
      (not_mem_tasks_step engine op s timer_id hdead hop) hnc'
    constructor
    · rw [fireCount_cons_zero engine timer_id op s rest (Or.inr hdead)]
      exact hrest.1
    · rw [cancelTrueCount_cons_zero engine timer_id op s rest (Or.inr hdead)]
      exact hrest.2

theorem counts_le_one (engine : Engine) (timer_id : Nat) :
    ∀ (ops : List Op) (s : RuntimeState),
      (∀ d, Op.createT timer_id d ∉ ops) →
      fireCount engine timer_id s ops + cancelTrueCount engine timer_id s ops ≤ 1 := by
  intro ops
  induction ops with
  | nil => intro s _; exact Nat.zero_le 1
  | cons op rest ih =>
    intro s hnc
    have hnc' : ∀ d, Op.createT timer_id d ∉ rest :=
      fun d hm => hnc d (List.mem_cons_of_mem op hm)
    by_cases hfire : op = Op.expire timer_id ∧ timer_id ∈ s.timer_tasks
    · obtain ⟨rfl, hm⟩ := hfire
      have hdead : timer_id ∉ (step engine (Op.expire timer_id) s).timer_tasks := by
        rw [tasks_step_expire]
        exact Finset.not_mem_erase _ _
      have hz := counts_zero_of_dead engine timer_id rest _ hdead hnc'
      rw [fireCount_cons_hit engine timer_id s rest hm,
          cancelTrueCount_cons_zero engine timer_id _ s rest
            (Or.inl (fun h => Op.noConfusion h)),
          hz.1, hz.2]
    · by_cases hcan : op = Op.cancelT timer_id ∧ timer_id ∈ s.timer_tasks
      · obtain ⟨rfl, hm⟩ := hcan
        have hdead : timer_id ∉ (step engine (Op.cancelT timer_id) s).timer_tasks := by
          rw [tasks_step_cancelT]
          exact Finset.not_mem_erase _ _
        have hz := counts_zero_of_dead engine timer_id rest _ hdead hnc'
        rw [cancelTrueCount_cons_hit engine timer_id s rest hm,
            fireCount_cons_zero engine timer_id _ s rest
              (Or.inl (fun h => Op.noConfusion h)),
            hz.1, hz.2]
      · have h1 : op ≠ Op.expire timer_id ∨ timer_id ∉ s.timer_tasks := by
          by_cases hm : timer_id ∈ s.timer_tasks
          · exact Or.inl (fun he => hfire ⟨he, hm⟩)
          · exact Or.inr hm
        have h2 : op ≠ Op.cancelT timer_id ∨ timer_id ∉ s.timer_tasks := by
          by_cases hm : timer_id ∈ s.timer_tasks
          · exact Or.inl (fun he => hcan ⟨he, hm⟩)
          · exact Or.inr hm
        rw [fireCount_cons_zero engine timer_id op s rest h1,
            cancelTrueCount_cons_zero engine timer_id op s rest h2]
        exact ih _ hnc'

theorem counts_eq_one (engine : Engine) (timer_id : Nat) :
    ∀ (ops : List Op) (s : RuntimeState), timer_id ∈ s.timer_tasks →
      (∀ d, Op.createT timer_id d ∉ ops) →
      (Op.expire timer_id ∈ ops ∨ Op.cancelT timer_id ∈ ops) →
      fireCount engine timer_id s ops + cancelTrueCount engine timer_id s ops = 1 := by
  intro ops
  induction ops with
  | nil =>
    intro s _ _ hmem
    rcases hmem with h | h <;> exact absurd h (List.not_mem_nil _)
  | cons op rest ih =>
    intro s hm hnc hmem
    have hnc' : ∀ d, Op.createT timer_id d ∉ rest :=
      fun d hm' => hnc d (List.mem_cons_of_mem op hm')
    by_cases hfire : op = Op.expire timer_id
    · subst hfire
      have hdead : timer_id ∉ (step engine (Op.expire timer_id) s).timer_tasks := by
        rw [tasks_step_expire]
        exact Finset.not_mem_erase _ _
      have hz := counts_zero_of_dead engine timer_id rest _ hdead hnc'
      rw [fireCount_cons_hit engine timer_id s rest hm,
          cancelTrueCount_cons_zero engine timer_id _ s rest
            (Or.inl (fun h => Op.noConfusion h)),
          hz.1, hz.2]
    · by_cases hcan : op = Op.cancelT timer_id
      · subst hcan
        have hdead : timer_id ∉ (step engine (Op.cancelT timer_id) s).timer_tasks := by
          rw [tasks_step_cancelT]
          exact Finset.not_mem_erase _ _
        have hz := counts_zero_of_dead engine timer_id rest _ hdead hnc'
        rw [cancelTrueCount_cons_hit engine timer_id s rest hm,
            fireCount_cons_zero engine timer_id _ s rest
              (Or.inl (fun h => Op.noConfusion h)),
            hz.1, hz.2]
      · have hm' := mem_tasks_step engine op s timer_id hm hfire hcan
        have hmem' : Op.expire timer_id ∈ rest ∨ Op.cancelT timer_id ∈ rest := by
          rcases hmem with h | h
          · rcases List.mem_cons.mp h with he | hr
            · exact absurd he.symm hfire
            · exact Or.inl hr
          · rcases List.mem_cons.mp h with he | hr
            · exact absurd he.symm hcan
            · exact Or.inr hr
        rw [fireCount_cons_zero engine timer_id op s rest (Or.inl hfire),
            cancelTrueCount_cons_zero engine timer_id op s rest (Or.inl hcan)]
        exact ih _ hm' hnc' hmem'

/-! Reachability invariant tying the semaphore count, the queue contents,
the loop phase and the ghost histories together. -/

def StateInv (s : RuntimeState) : Prop :=
  s.timer_semaphore = s.callback_queue.length ∧
  s.in_flight = (match s.phase with
                 | LoopPhase.idle => 0
                 | LoopPhase.executing _ => 1) ∧
  s.dispatched ++ s.callback_queue = s.enq_history

theorem stateInv_init : StateInv initState :=
  ⟨rfl, rfl, rfl⟩

theorem stateInv_step (engine : Engine) (op : Op) (s : RuntimeState)
    (h : StateInv s) : StateInv (step engine op s) := by
  obtain ⟨h1, h2, h3⟩ := h
  cases op with
  | createT j d =>
    rw [step_createT_eq]
    exact ⟨h1, h2, h3⟩
  | expire j =>
    by_cases hm : j ∈ s.timer_tasks
    · show StateInv (expireStep j s)
      rw [expireStep_fired j s hm]
      refine ⟨?_, h2, ?_⟩
      · simp [h1]
      · show s.dispatched ++ (s.callback_queue ++ [timerCallback j]) = _
        rw [← List.append_assoc, h3]
    · show StateInv (expireStep j s)
      rw [expireStep_noop j s hm]
      exact ⟨h1, h2, h3⟩
  | cancelT j =>
    by_cases hm : j ∈ s.timer_tasks
    · show StateInv (python_cancel_timer j s).1
      rw [cancel_found j s hm]
      exact ⟨h1, h2, h3⟩
    · show StateInv (python_cancel_timer j s).1
      rw [cancel_missing j s hm]
      exact ⟨h1, h2, h3⟩
  | submit j d =>
    rw [step_submit_eq]
    refine ⟨?_, h2, ?_⟩
    · simp [h1]
    · show s.dispatched ++ (s.callback_queue ++ [luaCallback j d]) = _
      rw [← List.append_assoc, h3]
  | beginDispatch =>
    by_cases hg : s.loop_running = true ∧ s.phase = LoopPhase.idle ∧ 0 < s.timer_semaphore
    · obtain ⟨hg1, hg2, hg3⟩ := hg
      cases hq : s.callback_queue with
      | nil => rw [step_begin_empty engine s hq]; exact ⟨h1, h2, h3⟩
      | cons cb rest =>
        rw [step_begin_eq engine s cb rest hg1 hg2 hq hg3]
        refine ⟨?_, ?_, ?_⟩
        · show s.timer_semaphore - 1 = rest.length
          rw [h1, hq]
          simp
        · show s.in_flight + 1 = 1
          rw [h2, hg2]
        · show (s.dispatched ++ [cb]) ++ rest = s.enq_history
          rw [List.append_assoc]
          show s.dispatched ++ (cb :: rest) = s.enq_history
          rw [← hq]
          exact h3
    · rw [step_begin_stuck engine s hg]
      exact ⟨h1, h2, h3⟩
  | finishDispatch =>
    cases hp : s.phase with
    | idle => rw [step_finish_idle engine s hp]; exact ⟨h1, h2, h3⟩
    | executing cb =>
      cases he : invokeEngine engine cb with
      | ok u =>
        cases u
        rw [step_finish_ok engine s cb hp he]
        refine ⟨h1, ?_, h3⟩
        show s.in_flight - 1 = 0
        rw [h2, hp]
        rfl
      | error e =>
        rw [step_finish_error engine s cb e hp he]
        refine ⟨h1, ?_, h3⟩
        show s.in_flight - 1 = 0
        rw [h2, hp]
        rfl
  | stopCall =>
    rw [step_stop_eq]
    exact ⟨h1, h2, h3⟩
  | ensureLoop =>
    rw [step_ensure_eq]
    exact ⟨h1, h2, h3⟩

theorem stateInv_run (engine : Engine) :
    ∀ (ops : List Op) (s : RuntimeState), StateInv s →
      StateInv (run engine s ops) := by
  intro ops
  induction ops with
  | nil => exact fun s h => h
  | cons op rest ih =>
    intro s h
    exact ih (step engine op s) (stateInv_step engine op s h)

/-! A running, idle loop with a semaphore count matching the queue length
processes the whole queue, one event per iteration, in queue order, no
matter whether the engine invocations succeed or raise. -/

theorem drain_spec (engine : Engine) :
    ∀ (q : List CallbackData) (s : RuntimeState),
      s.loop_running = true → s.phase = LoopPhase.idle →
      s.callback_queue = q → s.timer_semaphore = q.length →
      (drainN engine q.length s).dispatched = s.dispatched ++ q ∧
      (drainN engine q.length s).callback_queue = [] ∧
      (drainN engine q.length s).phase = LoopPhase.idle ∧
      (drainN engine q.length s).loop_running = true := by
  intro q
  induction q with
  | nil =>
    intro s h1 h2 h3 _
    exact ⟨(List.append_nil s.dispatched).symm, h3, h2, h1⟩
  | cons cb rest ih =>
    intro s h1 h2 h3 h4
    have h4' : 0 < s.timer_semaphore := by
      rw [h4]
      exact Nat.succ_pos rest.length
    have hsem : s.timer_semaphore - 1 = rest.length := by
      rw [h4, List.length_cons]
      exact Nat.add_sub_cancel _ _
    have hb := step_begin_eq engine s cb rest h1 h2 h3 h4'
    have hround : ∃ lg, dispatchRound engine s =
        { s with
            timer_semaphore := s.timer_semaphore - 1
            callback_queue := rest
            phase := LoopPhase.idle
            in_flight := s.in_flight + 1 - 1
            dispatched := s.dispatched ++ [cb]
            log := lg } := by
      cases he : invokeEngine engine cb with
      | ok u =>
        cases u
        refine ⟨s.log, ?_⟩
        show step engine Op.finishDispatch (step engine Op.beginDispatch s) = _
        rw [step_finish_ok engine _ cb (by rw [hb]) he, hb]
      | error e =>
        refine ⟨s.log ++ [(cb.callback_id, e)], ?_⟩
        show step engine Op.finishDispatch (step engine Op.beginDispatch s) = _
        rw [step_finish_error engine _ cb e (by rw [hb]) he, hb]
    obtain ⟨lg, hround⟩ := hround
    obtain ⟨ihd, ihq, ihp, ihl⟩ := ih (dispatchRound engine s)
      (by rw [hround]; exact h1) (by rw [hround]) (by rw [hround])
      (by rw [hround]; exact hsem)
    refine ⟨?_, ?_, ?_, ?_⟩
    · show (drainN engine rest.length (dispatchRound engine s)).dispatched
        = s.dispatched ++ cb :: rest
      rw [ihd, hround]
      show (s.dispatched ++ [cb]) ++ rest = s.dispatched ++ cb :: rest
      rw [List.append_assoc]
      rfl
    · exact ihq
    · exact ihp
    · exact ihl

/-! Embedding of the initialization guards of `LuaInterpreter`
(`src/plua2/interpreter.py`).  The embedded lupa engine is an external
collaborator; its `execute` operation is a black-box parameter, and the
`self.lua` handle is `Option LuaState` (`None` before `initialize()`). -/

/-- Opaque handle to the embedded lupa `LuaRuntime` instance. -/
abbrev LuaState := Nat

/-- The black-box `lua.execute` operation of the embedded engine: runs a
chunk of Lua source against the engine state, returning the new state or
raising. -/
abbrev LuaExec := LuaState → String → Except String LuaState

/-- The fields of `LuaInterpreter` relevant to the claims: the optional
engine handle, the web-mode flag and the print-capture buffer. -/
structure LuaInterpreter where
  lua : Option LuaState
  web_mode : Bool
  output_buffer : List String
  deriving DecidableEq

/-- The load script built by `execute_script` (interpreter.py lines
189-221): with a source name it loads the chunk under `@name` and either
stashes it in `_PY._debug_main_function` (debugging) or runs it wrapped in
a coroutine; without a source name it wraps the chunk directly. -/
def buildLoadScript (script : String) (source_name : Option String)
    (debugging : Bool) : String :=
  match source_name with
  | some name =>
    if debugging then
      "local func, err = (loadstring or load)(" ++ script ++ ", @" ++ name ++
        "); if func then _PY._debug_main_function = func else error(" ++
        "\"Failed to load script: \" .. tostring(err)) end"
    else
      "local func, err = (loadstring or load)(" ++ script ++ ", @" ++ name ++
        "); if func then coroutine.wrap(func)() else error(" ++
        "\"Failed to load script: \" .. tostring(err)) end"
  | none => "coroutine.wrap(function () " ++ script ++ " end)()"

/-- The callback script built by `execute_lua_callback` (interpreter.py
lines 385-411): with data it passes the converted payload through the
`temp_callback_data` global, without data it calls the callback bare. -/
def buildCallbackScript (callback_id : Nat) (data : Option Payload) : String :=
  match data with
  | some _ =>
    "if _PY.executeCallback then _PY.executeCallback(" ++ toString callback_id ++
      ", temp_callback_data); temp_callback_data = nil else error(" ++
      "\"Callback system not initialized\") end"
  | none =>
    "if _PY.executeCallback then _PY.executeCallback(" ++ toString callback_id ++
      ") else error(\"Callback system not initialized\") end"

/-- The script run by `execute_debug_main` to call and clear
`_PY._debug_main_function` (interpreter.py lines 266-277). -/
def execDebugMainScript : String :=
  "if _PY._debug_main_function then _PY._debug_main_function();" ++
    " _PY._debug_main_function = nil else error(" ++
    "\"No debug main function loaded\") end"

/-- `execute_script` (interpreter.py lines 173-221): raises `RuntimeError`
when `self.lua` is `None`, otherwise builds the load script and delegates
to `lua.execute`. -/
def execute_script (luaExec : LuaExec) (itp : LuaInterpreter) (script : String)
    (source_name : Option String) (debugging : Bool) :
    Except String LuaInterpreter :=
  match itp.lua with
  | none => Except.error "Lua runtime not initialized. Call initialize() first."
  | some L =>
    match luaExec L (buildLoadScript script source_name debugging) with
    | Except.ok L' => Except.ok { itp with lua := some L' }
    | Except.error e => Except.error e

/-- `execute_file` (interpreter.py lines 223-241): raises `RuntimeError`
when `self.lua` is `None`, otherwise calls `self.PY.main_file_hook` and
re-raises any hook failure as a `RuntimeError` naming the file. -/
def execute_file (main_file_hook : String → Except String Unit)
    (itp : LuaInterpreter) (filepath : String) :
    Except String LuaInterpreter :=
  match itp.lua with
  | none => Except.error "Lua runtime not initialized. Call initialize() first."
  | some _ =>
    match main_file_hook filepath with
    | Except.ok _ => Except.ok itp
    | Except.error e =>
      Except.error ("main_file_hook failed for " ++ filepath ++ ": " ++ e)

/-- `execute_debug_main` (interpreter.py lines 243-277): raises
`RuntimeError` when `self.lua` is `None`; otherwise checks whether
`_PY._debug_main_function` exists (a black-box engine query), skipping
silently when absent and running the stored chunk when present. -/
def execute_debug_main (luaExec : LuaExec) (has_debug_main : LuaState → Bool)
    (itp : LuaInterpreter) : Except String LuaInterpreter :=
  match itp.lua with
  | none => Except.error "Lua runtime not initialized."
  | some L =>
    if has_debug_main L then
      match luaExec L execDebugMainScript with
      | Except.ok L' => Except.ok { itp with lua := some L' }
      | Except.error e => Except.error e
    else Except.ok itp

/-- `execute_lua_callback` (interpreter.py lines 380-413): raises
`RuntimeError` when `self.lua` is `None`, otherwise routes the callback id
and optional payload to `_PY.executeCallback` via `lua.execute`. -/
def execute_lua_callback (luaExec : LuaExec) (itp : LuaInterpreter)
    (callback_id : Nat) (data : Option Payload) :
    Except String LuaInterpreter :=
  match itp.lua with
  | none => Except.error "Lua runtime not initialized."
  | some L =>
    match luaExec L (buildCallbackScript callback_id data) with
    | Except.ok L' => Except.ok { itp with lua := some L' }
    | Except.error e => Except.error e

/-- An interpreter on which `initialize()` has not been called. -/
def itpFresh : LuaInterpreter := ⟨none, false, []⟩

/-- A trivial stand-in for the engine's execute operation. -/
def luaExecOk : LuaExec := fun L _ => Except.ok L

/-- A trivial stand-in for the `main_file_hook` collaborator. -/
def hookOk : String → Except String Unit := fun _ => Except.ok ()

/-- A trivial stand-in for the debug-main existence query. -/
def hasMainNo : LuaState → Bool := fun _ => false

/-- A sample trace: create timer 1, then let it expire. -/
def opsW : List Op := [Op.createT 1 50, Op.expire 1]

/-! Claim theorems. -/

/-- C1: for a timer id that is live and is never re-created along a trace,
at most one of the two outcomes — expiry-dispatch (the expiry path finds
the id live and enqueues a Timer event) and cancel-success
(`python_cancel_timer` returns True) — occurs, and as soon as the trace
contains the expiry step or a cancel call for the id, exactly one occurs.
This holds over every interleaving of the atomic steps: in the source the
membership check and the removal run inside suspension-free segments of
the single event-loop thread (`timer_task` after the sleep has no blocking
await, `python_cancel_timer` is fully synchronous), so whichever side runs
first removes the id and the other observes "already gone". -/
theorem timer_exactly_one_outcome (engine : Engine) (timer_id : Nat)
    (s : RuntimeState) (ops : List Op) (hlive : timer_id ∈ s.timer_tasks)
    (hnew : ∀ delay_ms, Op.createT timer_id delay_ms ∉ ops) :
    fireCount engine timer_id s ops + cancelTrueCount engine timer_id s ops ≤ 1 ∧
    ((Op.expire timer_id ∈ ops ∨ Op.cancelT timer_id ∈ ops) →
      fireCount engine timer_id s ops + cancelTrueCount engine timer_id s ops = 1) :=
  ⟨counts_le_one engine timer_id ops s hnew,
   fun hmem => counts_eq_one engine timer_id ops s hlive hnew hmem⟩

/-- Witness for C1: timer 1 is cancelled before its expiry step runs; the
cancel succeeds, the expiry is a no-op, and exactly one outcome occurs. -/
theorem timer_exactly_one_outcome_witness :
    fireCount engOk 1 sLive [Op.cancelT 1, Op.expire 1]
      + cancelTrueCount engOk 1 sLive [Op.cancelT 1, Op.expire 1] = 1 :=
  (timer_exactly_one_outcome engOk 1 sLive [Op.cancelT 1, Op.expire 1]
    (by decide) (by intro d; simp)).2 (Or.inr (by simp))

/-- C2: when the delay expires and the id is still registered live, the
expiry enqueues exactly one Timer-kind event carrying the id at the tail
of the callback queue, releases the semaphore exactly once and removes the
id from the live set; when a cancellation already removed the id, the
expiry leaves the state completely unchanged (no event, no signal). -/
theorem expiry_dispatch_or_silent_noop (s : RuntimeState) (timer_id : Nat) :
    (timer_id ∈ s.timer_tasks →
      (expireStep timer_id s).callback_queue
          = s.callback_queue ++ [timerCallback timer_id] ∧
      (expireStep timer_id s).timer_semaphore = s.timer_semaphore + 1 ∧
      (expireStep timer_id s).timer_tasks = s.timer_tasks.erase timer_id ∧
      timer_id ∉ (expireStep timer_id s).timer_tasks) ∧
    (timer_id ∉ s.timer_tasks → expireStep timer_id s = s) := by
  constructor
  · intro h
    rw [expireStep_fired timer_id s h]
    exact ⟨rfl, rfl, rfl, Finset.not_mem_erase _ _⟩
  · exact expireStep_noop timer_id s

/-- Witness for C2: timer 1 is live in `sLive`, so its expiry enqueues the
Timer event and signals once; timer 2 is not live, so its expiry is a
silent no-op. -/
theorem expiry_dispatch_or_silent_noop_witness :
    ((expireStep 1 sLive).callback_queue = sLive.callback_queue ++ [timerCallback 1] ∧
      (expireStep 1 sLive).timer_semaphore = sLive.timer_semaphore + 1 ∧
      (expireStep 1 sLive).timer_tasks = sLive.timer_tasks.erase 1 ∧
      1 ∉ (expireStep 1 sLive).timer_tasks) ∧
    expireStep 2 sLive = sLive :=
  ⟨(expiry_dispatch_or_silent_noop sLive 1).1 (by decide),
   (expiry_dispatch_or_silent_noop sLive 2).2 (by decide)⟩

/-- C3: a failing engine invocation is caught at the dispatch-loop
boundary — the loop returns to idle and logs a diagnostic carrying the
event's callback id and the error — and the loop keeps consuming: from a
running idle state whose semaphore matches its queue, iterating the loop
dispatches every queued event in order and empties the queue for every
engine, including engines that raise on every invocation. -/
theorem callback_failure_isolated (engine : Engine) (s : RuntimeState)
    (h1 : s.loop_running = true) (h2 : s.phase = LoopPhase.idle)
    (h3 : s.timer_semaphore = s.callback_queue.length) :
    ((drainN engine s.callback_queue.length s).dispatched
        = s.dispatched ++ s.callback_queue ∧
      (drainN engine s.callback_queue.length s).callback_queue = [] ∧
      (drainN engine s.callback_queue.length s).phase = LoopPhase.idle) ∧
    (∀ (t : RuntimeState) (cb : CallbackData) (e : String),
      t.phase = LoopPhase.executing cb →
      invokeEngine engine cb = Except.error e →
      (step engine Op.finishDispatch t).phase = LoopPhase.idle ∧
      (step engine Op.finishDispatch t).log = t.log ++ [(cb.callback_id, e)]) := by
  constructor
  · obtain ⟨hd, hq, hp, _⟩ := drain_spec engine s.callback_queue s h1 h2 rfl h3
    exact ⟨hd, hq, hp⟩
  · intro t cb e hp he
    rw [step_finish_error engine t cb e hp he]
    exact ⟨rfl, rfl⟩

/-- Witness for C3: with an engine that raises on every invocation, both
events queued in `sTwo` are still dispatched, and finishing a failing
invocation appends a diagnostic with the event's callback id. -/
theorem callback_failure_isolated_witness :
    (drainN engFail sTwo.callback_queue.length sTwo).dispatched
        = sTwo.dispatched ++ sTwo.callback_queue ∧
    (step engFail Op.finishDispatch sExec).log = sExec.log ++ [(3, "boom")] :=
  ⟨((callback_failure_isolated engFail sTwo (by decide) (by decide) (by decide)).1).1,
   ((callback_failure_isolated engFail sTwo (by decide) (by decide) (by decide)).2
      sExec (luaCallback 3 none) "boom" rfl
      (by simp [invokeEngine, engFail, luaCallback])).2⟩

/-- C4: every enqueue (timer expiry or `_queue_callback`) bumps the queue
and releases the semaphore exactly once, atomically from the loop thread's
point of view; consequently in every reachable state the semaphore count
equals (hence is at least) the number of unconsumed queue entries, and a
successful semaphore acquire guarantees at least one queue entry, so the
subsequent dequeue never blocks. -/
theorem enqueue_signal_discipline (engine : Engine) (ops : List Op) :
    ((run engine initState ops).callback_queue.length
        ≤ (run engine initState ops).timer_semaphore ∧
      (run engine initState ops).timer_semaphore
        = (run engine initState ops).callback_queue.length) ∧
    (0 < (run engine initState ops).timer_semaphore →
      (run engine initState ops).callback_queue ≠ []) ∧
    (∀ (t : RuntimeState) (timer_id : Nat), timer_id ∈ t.timer_tasks →
      (expireStep timer_id t).timer_semaphore = t.timer_semaphore + 1 ∧
      (expireStep timer_id t).callback_queue.length = t.callback_queue.length + 1) ∧
    (∀ (t : RuntimeState) (cb : CallbackData),
      (queue_callback cb t).timer_semaphore = t.timer_semaphore + 1 ∧
      (queue_callback cb t).callback_queue.length = t.callback_queue.length + 1) ∧
    (∀ (t : RuntimeState) (callback_id : Nat) (d : Option Payload),
      ∃ t', queue_lua_callback true callback_id d t = Except.ok t' ∧
        t'.timer_semaphore = t.timer_semaphore + 1 ∧
        t'.callback_queue.length = t.callback_queue.length + 1) := by
  obtain ⟨h1, h2, h3⟩ := stateInv_run engine ops initState stateInv_init
  refine ⟨⟨Nat.le_of_eq h1.symm, h1⟩, ?_, ?_, ?_, ?_⟩
  · intro hpos hnil
    rw [hnil, List.length_nil] at h1
    omega
  · intro t timer_id hm
    rw [expireStep_fired timer_id t hm]
    refine ⟨rfl, ?_⟩
    show (t.callback_queue ++ [timerCallback timer_id]).length = _
    rw [List.length_append]
    rfl
  · intro t cb
    refine ⟨rfl, ?_⟩
    show (t.callback_queue ++ [cb]).length = _
    rw [List.length_append]
    rfl
  · intro t callback_id d
    refine ⟨_, queue_lua_true_eq callback_id d t, rfl, ?_⟩
    show (t.callback_queue ++ [luaCallback callback_id d]).length = _
    rw [List.length_append]
    rfl

/-- Witness for C4: after creating and expiring timer 1 the semaphore is
positive and the queue is nonempty, and a live expiry releases exactly one
unit. -/
theorem enqueue_signal_discipline_witness :
    (run engOk initState opsW).callback_queue ≠ [] ∧
    (expireStep 1 sLive).timer_semaphore = sLive.timer_semaphore + 1 :=
  ⟨(enqueue_signal_discipline engOk opsW).2.1 (by decide),
   ((enqueue_signal_discipline engOk opsW).2.2.1 sLive 1 (by decide)).1⟩

/-- C5: in every reachable state the list of events handed to the engine,
in invocation order, extended by the unconsumed queue, equals the complete
enqueue history — so events are invoked one at a time in FIFO submission
order with no reordering — and the number of engine invocations in flight
never exceeds one: the single loop task only begins an invocation from the
idle phase and returns to idle before beginning the next. -/
theorem dispatch_fifo_no_overlap (engine : Engine) (ops : List Op) :
    (run engine initState ops).dispatched ++ (run engine initState ops).callback_queue
      = (run engine initState ops).enq_history ∧
    (run engine initState ops).in_flight ≤ 1 := by
  obtain ⟨h1, h2, h3⟩ := stateInv_run engine ops initState stateInv_init
  refine ⟨h3, ?_⟩
  rw [h2]
  cases (run engine initState ops).phase with
  | idle => exact Nat.zero_le 1
  | executing cb => exact Nat.le_refl 1

/-- C6: `python_cancel_timer` returns True exactly when the id is found in
the live set at call time; it removes the id and requests cancellation of
the underlying task; a second cancel with no intervening create returns
False, and cancelling an id whose expiry already fired returns False. -/
theorem cancel_iff_live_idempotent (s : RuntimeState) (timer_id : Nat) :
    ((python_cancel_timer timer_id s).2 = true ↔ timer_id ∈ s.timer_tasks) ∧
    (python_cancel_timer timer_id s).1.timer_tasks = s.timer_tasks.erase timer_id ∧
    (timer_id ∈ s.timer_tasks →
      timer_id ∈ (python_cancel_timer timer_id s).1.cancel_requested) ∧
    (python_cancel_timer timer_id (python_cancel_timer timer_id s).1).2 = false ∧
    (python_cancel_timer timer_id (expireStep timer_id s)).2 = false := by
  have htasks : (python_cancel_timer timer_id s).1.timer_tasks
      = s.timer_tasks.erase timer_id := by
    by_cases h : timer_id ∈ s.timer_tasks
    · rw [cancel_found timer_id s h]
    · rw [cancel_missing timer_id s h, Finset.erase_eq_of_not_mem h]
  have hreq : timer_id ∈ s.timer_tasks →
      timer_id ∈ (python_cancel_timer timer_id s).1.cancel_requested := by
    intro h
    rw [cancel_found timer_id s h]
    exact Finset.mem_insert_self _ _
  have hidem : (python_cancel_timer timer_id (python_cancel_timer timer_id s).1).2
      = false := by
    have hiff := cancel_true_iff timer_id (python_cancel_timer timer_id s).1
    rw [htasks] at hiff
    exact Bool.eq_false_iff.mpr (fun ht => Finset.not_mem_erase _ _ (hiff.mp ht))
  have hexp : (python_cancel_timer timer_id (expireStep timer_id s)).2 = false := by
    have hdead : timer_id ∉ (expireStep timer_id s).timer_tasks := by
      by_cases h : timer_id ∈ s.timer_tasks
      · rw [expireStep_fired timer_id s h]
        exact Finset.not_mem_erase _ _
      · rw [expireStep_noop timer_id s h]
        exact h
    exact Bool.eq_false_iff.mpr (fun ht => hdead ((cancel_true_iff _ _).mp ht))
  exact ⟨cancel_true_iff timer_id s, htasks, hreq, hidem, hexp⟩

/-- Witness for C6: cancelling live timer 1 records the cancel request on
the underlying task. -/
theorem cancel_iff_live_idempotent_witness :
    1 ∈ (python_cancel_timer 1 sLive).1.cancel_requested :=
  (cancel_iff_live_idempotent sLive 1).2.2.1 (by decide)

/-- Formalization of the shutdown-cleanup requirement of C7 as stated:
after `stop()` every outstanding timer has been cancelled out of the live
set and the callback queue is empty. -/
def stopLeavesCleanState : Prop :=
  ∀ s : RuntimeState, (stop s).timer_tasks = ∅ ∧ (stop s).callback_queue = []

/-- Counterexample for C7: `stop` (runtime.py lines 289-295) only cancels
the callback-loop task; on a state with live timer 1 and a queued event,
the live set and the queue survive `stop` untouched. -/
theorem stop_does_not_clean_up : ¬ stopLeavesCleanState := by
  intro h
  exact absurd (h sBusy).1 (by decide)

/-- C7 amended: `stop()` cancels the dispatch-loop task and leaves any
in-flight invocation untouched (the loop phase is unchanged; cancellation
is delivered at the next suspension point), but it cancels no outstanding
timer and drops no queued event: the live set and queue survive, and a
live timer can still fire and enqueue after `stop()`. -/
theorem stop_cancels_only_loop (s : RuntimeState) :
    (stop s).loop_running = false ∧
    (stop s).timer_tasks = s.timer_tasks ∧
    (stop s).callback_queue = s.callback_queue ∧
    (stop s).phase = s.phase ∧
    (∀ timer_id, timer_id ∈ s.timer_tasks →
      (expireStep timer_id (stop s)).callback_queue
        = s.callback_queue ++ [timerCallback timer_id]) := by
  refine ⟨rfl, rfl, rfl, rfl, ?_⟩
  intro timer_id h
  have h' : timer_id ∈ (stop s).timer_tasks := h
  rw [expireStep_fired timer_id (stop s) h']
  rfl

/-- Witness for C7's amended claim: timer 1 outlives `stop` on `sBusy` and
its expiry still enqueues an event afterwards. -/
theorem stop_cancels_only_loop_witness :
    (expireStep 1 (stop sBusy)).callback_queue
      = sBusy.callback_queue ++ [timerCallback 1] :=
  (stop_cancels_only_loop sBusy).2.2.2.2 1 (by decide)

/-- Formalization of C8 as stated: a submission after `stop()` never
raises out of `queue_lua_callback` into the producer (at most a logged
warning), regardless of the calling thread, and the submitted event is
never dispatched into the stopped runtime. -/
def submissionAfterStopHarmless : Prop :=
  ∀ (engine : Engine) (on_loop_thread : Bool) (callback_id : Nat)
    (d : Option Payload) (post : List Op),
    (∃ s', queue_lua_callback on_loop_thread callback_id d (stop initState)
        = Except.ok s') ∧
    (run engine (stop initState) (Op.submit callback_id d :: post)).dispatched = []

/-- Counterexample for C8, exhibiting both failure modes of the claim.
From a producer thread once the cancelled loop task is done,
`_ensure_callback_loop_running` (runtime.py line 344, outside the `try`)
calls `asyncio.create_task` (line 213), which raises `RuntimeError` out of
`queue_lua_callback` into the producer — the call crashes rather than
no-ops.  From the event-loop thread, the same check restarts the dispatch
loop and the submitted event is dispatched into the runtime on the next
iteration. -/
theorem submission_after_stop_not_harmless :
    ¬ submissionAfterStopHarmless ∧
    queue_lua_callback false 7 none (stop initState)
      = Except.error "no running event loop" ∧
    (run engOk (stop initState)
        [Op.submit 7 none, Op.beginDispatch, Op.finishDispatch]).dispatched
      = [luaCallback 7 none] := by
  refine ⟨?_, ?_, by decide⟩
  · intro h
    obtain ⟨⟨s', hs'⟩, _⟩ := h engOk false 7 none []
    rw [queue_lua_false_stopped 7 none (stop initState) rfl] at hs'
    exact Except.noConfusion hs'
  · exact queue_lua_false_stopped 7 none (stop initState) rfl

/-- C8 amended: what a submission after `stop()` does depends on the
calling thread and on whether the cancelled loop task is already done.
From a producer thread while the loop task is still alive, the claim's
behavior holds: nothing is raised, the enqueue fails inside the
`try`/`except` fallback, and the event is silently dropped with a debug
log (state unchanged).  From a producer thread once the loop task is done,
the uncaught `RuntimeError` from `_ensure_callback_loop_running`'s
`asyncio.create_task` propagates and the producer call crashes.  From the
event-loop thread, the dispatch loop is restarted and the event is
enqueued and signalled, to be dispatched normally into the runtime. -/
theorem submission_after_stop_paths (s : RuntimeState) (callback_id : Nat)
    (d : Option Payload) :
    (s.loop_running = true →
      queue_lua_callback false callback_id d s = Except.ok s) ∧
    (s.loop_running = false →
      queue_lua_callback false callback_id d s
        = Except.error "no running event loop") ∧
    (∃ s', queue_lua_callback true callback_id d (stop s) = Except.ok s' ∧
      s'.loop_running = true ∧
      s'.callback_queue = s.callback_queue ++ [luaCallback callback_id d] ∧
      s'.timer_semaphore = s.timer_semaphore + 1) := by
  refine ⟨queue_lua_false_running callback_id d s,
          queue_lua_false_stopped callback_id d s, ?_⟩
  exact ⟨_, queue_lua_true_eq callback_id d (stop s), rfl, rfl, rfl⟩

/-- Witness for C8's amended claim: a producer-thread submission is a
silent no-op while the loop task lives (`sBusy`) and raises once it is
done (`stop initState`); a loop-thread submission after stop enqueues. -/
theorem submission_after_stop_paths_witness :
    queue_lua_callback false 7 none sBusy = Except.ok sBusy ∧
    queue_lua_callback false 7 none (stop initState)
      = Except.error "no running event loop" ∧
    (∃ s', queue_lua_callback true 7 none (stop initState) = Except.ok s' ∧
      s'.loop_running = true ∧
      s'.callback_queue = initState.callback_queue ++ [luaCallback 7 none] ∧
      s'.timer_semaphore = initState.timer_semaphore + 1) :=
  ⟨(submission_after_stop_paths sBusy 7 none).1 rfl,
   (submission_after_stop_paths (stop initState) 7 none).2.1 rfl,
   (submission_after_stop_paths initState 7 none).2.2⟩

/-- Formalization of C9 as stated: a create on a currently-live id is
detected and surfaced to the caller as an error. -/
def duplicateCreateSurfacesError : Prop :=
  ∀ (s : RuntimeState) (timer_id delay_ms : Nat), timer_id ∈ s.timer_tasks →
    ∃ e, create_timer timer_id delay_ms s = Except.error e

/-- Counterexample for C9: `create_timer` (runtime.py lines 53-97) performs
no duplicate check and contains no raise; creating timer 1 while 1 is
already live in `sLive` returns normally. -/
theorem duplicate_create_no_error : ¬ duplicateCreateSurfacesError := by
  intro h
  obtain ⟨e, he⟩ := h sLive 1 50 (by decide)
  simp [create_timer] at he

/-- C9 amended: a create on a live id is silently accepted: the call
returns normally with no error and overwrites the dict entry, so the live
set — a dict keyed by id — still holds at most one entry for the id (here
it is unchanged as a set), but no caller error is ever surfaced. -/
theorem duplicate_create_silently_accepted (s : RuntimeState)
    (timer_id delay_ms : Nat) (h : timer_id ∈ s.timer_tasks) :
    ∃ s', create_timer timer_id delay_ms s = Except.ok s' ∧
      s'.timer_tasks = s.timer_tasks ∧
      s'.callback_queue = s.callback_queue ∧
      s'.timer_semaphore = s.timer_semaphore := by
  refine ⟨_, rfl, ?_, rfl, rfl⟩
  show insert timer_id s.timer_tasks = s.timer_tasks
  exact Finset.insert_eq_self.mpr h

/-- Witness for C9's amended claim at the concrete duplicate create of
timer 1 in `sLive`. -/
theorem duplicate_create_silently_accepted_witness :
    ∃ s', create_timer 1 99 sLive = Except.ok s' ∧
      s'.timer_tasks = sLive.timer_tasks ∧
      s'.callback_queue = sLive.callback_queue ∧
      s'.timer_semaphore = sLive.timer_semaphore :=
  duplicate_create_silently_accepted sLive 1 99 (by decide)

/-- C10: on an interpreter whose `initialize()` has not run (`self.lua` is
`None`), `execute_script`, `execute_file`, `execute_debug_main` and
`execute_lua_callback` all raise `RuntimeError` with the source's
messages; the result is the same for every engine and hook, i.e. no script
code is executed, and no new interpreter state is produced by the failed
call. -/
theorem uninitialized_interpreter_raises (luaExec : LuaExec)
    (main_file_hook : String → Except String Unit)
    (has_debug_main : LuaState → Bool) (itp : LuaInterpreter)
    (h : itp.lua = none) (script filepath : String)
    (source_name : Option String) (debugging : Bool)
    (callback_id : Nat) (data : Option Payload) :
    execute_script luaExec itp script source_name debugging
      = Except.error "Lua runtime not initialized. Call initialize() first." ∧
    execute_file main_file_hook itp filepath
      = Except.error "Lua runtime not initialized. Call initialize() first." ∧
    execute_debug_main luaExec has_debug_main itp
      = Except.error "Lua runtime not initialized." ∧
    execute_lua_callback luaExec itp callback_id data
      = Except.error "Lua runtime not initialized." := by
  unfold execute_script execute_file execute_debug_main execute_lua_callback
  rw [h]
  exact ⟨rfl, rfl, rfl, rfl⟩

/-- Witness for C10 on a fresh, never-initialized interpreter. -/
theorem uninitialized_interpreter_raises_witness :
    execute_script luaExecOk itpFresh "print(1)" none false
      = Except.error "Lua runtime not initialized. Call initialize() first." ∧
    execute_lua_callback luaExecOk itpFresh 5 none
      = Except.error "Lua runtime not initialized." :=
  ⟨(uninitialized_interpreter_raises luaExecOk hookOk hasMainNo itpFresh rfl
      "print(1)" "f.lua" none false 5 none).1,
   (uninitialized_interpreter_raises luaExecOk hookOk hasMainNo itpFresh rfl
      "print(1)" "f.lua" none false 5 none).2.2.2⟩

end Plua2
